import Mathlib

/-!
Verification of the alto gas-estimation module (`gasEstimation.ts`-style file):
`calcDefaultPreVerificationGas`, the worst-case canonicalizer
`packedUserOperationToRandomDataUserOp`, ABI packing `packUserOp`, the chain
dispatcher `calcPreVerificationGas`, the Optimism and Arbitrum surcharge
calculators, the post-simulation limit deriver
`calcVerificationGasAndCallGasLimit`, and the error classifier
`parseViemError`.

Bytes are modelled as natural numbers below 256 (every byte produced by the
definitions is the result of `% 256` or a literal below 256); byte strings as
`List Nat`.  JavaScript `bigint` arithmetic is modelled on `Int` with
`Int.tdiv` (BigInt division truncates toward zero) and on `Nat` where all
quantities involved are non-negative; JavaScript `number` arithmetic in
`calcDefaultPreVerificationGas` is modelled on `Rat` (every intermediate value
there is a small dyadic rational, represented exactly by a double), with
`Math.round` as `jsRound`.  A BigInt division by zero throws a `RangeError` in
JavaScript; the fallible calculators therefore return `Except` with a
`divisionByZero` outcome, and a thrown `RpcError` is the `rpcError` outcome.
-/

/-- Big-endian byte string of length `k` for the number `n` (the low
`k` bytes of `n`). ABI encoding writes `uint256` and `bytes32` values this
way; `k = 32` is one ABI word. -/
def beBytes (k : Nat) (n : Nat) : List Nat :=
  (List.range k).map (fun i => n / 256 ^ (k - 1 - i) % 256)

/-- One 32-byte ABI word. -/
def beWord (n : Nat) : List Nat := beBytes 32 n

/-- Length of a byte string rounded up to a multiple of 32, as the ABI
encoder pads dynamic `bytes`. -/
def roundUp32 (n : Nat) : Nat := (n + 31) / 32 * 32

/-- Right-pad a byte string with zero bytes to a multiple of 32 bytes. -/
def padRight32 (bs : List Nat) : List Nat :=
  bs ++ List.replicate (roundUp32 bs.length - bs.length) 0

/-- ABI tail of a dynamic `bytes` value: 32-byte length word followed by the
zero-padded contents. -/
def abiBytes (bs : List Nat) : List Nat := beWord bs.length ++ padRight32 bs

/-- Byte length of the ABI tail of a dynamic `bytes` value. -/
def abiBytesLen (bs : List Nat) : Nat := 32 + roundUp32 bs.length

/-- `GasOverheads` from the source: the configuration of the §4.1 overhead
model. -/
structure GasOverheads where
  fixed : Nat
  perUserOp : Nat
  perUserOpWord : Nat
  zeroByte : Nat
  nonZeroByte : Nat
  bundleSize : Nat
  sigSize : Nat
  deriving DecidableEq

/-- `DefaultGasOverheads` from the source. -/
def DefaultGasOverheads : GasOverheads :=
  { fixed := 21000
    perUserOp := 18300
    perUserOpWord := 4
    zeroByte := 4
    nonZeroByte := 16
    bundleSize := 1
    sigSize := 65 }

/-- A caller-supplied `Partial<GasOverheads>` override: any subset of the
fields. -/
structure GasOverheadsOverride where
  fixed : Option Nat := none
  perUserOp : Option Nat := none
  perUserOpWord : Option Nat := none
  zeroByte : Option Nat := none
  nonZeroByte : Option Nat := none
  bundleSize : Option Nat := none
  sigSize : Option Nat := none
  deriving DecidableEq

/-- The spread-merge `{ ...DefaultGasOverheads, ...(overheads ?? {}) }` from
`calcDefaultPreVerificationGas`. -/
def mergeGasOverheads (o : GasOverheadsOverride) : GasOverheads :=
  { fixed := o.fixed.getD DefaultGasOverheads.fixed
    perUserOp := o.perUserOp.getD DefaultGasOverheads.perUserOp
    perUserOpWord := o.perUserOpWord.getD DefaultGasOverheads.perUserOpWord
    zeroByte := o.zeroByte.getD DefaultGasOverheads.zeroByte
    nonZeroByte := o.nonZeroByte.getD DefaultGasOverheads.nonZeroByte
    bundleSize := o.bundleSize.getD DefaultGasOverheads.bundleSize
    sigSize := o.sigSize.getD DefaultGasOverheads.sigSize }

/-- Paymaster fields of an unpacked operation (address, the two paymaster gas
limits, and the paymaster data), present only when a paymaster is used. -/
structure PaymasterFields where
  paymaster : Nat
  paymasterVerificationGasLimit : Nat
  paymasterPostOpGasLimit : Nat
  paymasterData : List Nat
  deriving DecidableEq

/-- `UnPackedUserOperation`: the unpacked v0.7 user operation, per the data
model (sender address, 256-bit nonce, init code, call data, the two gas
limits, `preVerificationGas`, the two fee fields, optional paymaster fields,
signature). -/
structure UnPackedUserOperation where
  sender : Nat
  nonce : Nat
  initCode : List Nat
  callData : List Nat
  verificationGasLimit : Nat
  callGasLimit : Nat
  preVerificationGas : Nat
  maxFeePerGas : Nat
  maxPriorityFeePerGas : Nat
  paymaster : Option PaymasterFields
  signature : List Nat
  deriving DecidableEq

/-- `PackedUserOperation`: the canonical fixed-shape encoding the entry-point
contract operates on; `accountGasLimits` and `gasFees` are single 32-byte
words, the paymaster fields are concatenated into `paymasterAndData`. -/
structure PackedUserOperation where
  sender : Nat
  nonce : Nat
  initCode : List Nat
  callData : List Nat
  accountGasLimits : List Nat
  preVerificationGas : Nat
  gasFees : List Nat
  paymasterAndData : List Nat
  signature : List Nat
  deriving DecidableEq

/-- Modelled from the spec: `toPackedUserOperation` (imported from
`./userop`, not part of the given sources).  Per §3, the packed form is
derived deterministically: the verification/call gas-limit pair is
concatenated into the 32-byte word `accountGasLimits`, the fee pair into the
32-byte word `gasFees` (16 bytes each), and the paymaster address, the two
16-byte paymaster gas limits and the paymaster data are concatenated into
`paymasterAndData` (empty when no paymaster is used); sender, nonce, init
code, call data, `preVerificationGas` and signature pass through. -/
def toPackedUserOperation (op : UnPackedUserOperation) : PackedUserOperation :=
  { sender := op.sender
    nonce := op.nonce
    initCode := op.initCode
    callData := op.callData
    accountGasLimits := beBytes 16 op.verificationGasLimit ++ beBytes 16 op.callGasLimit
    preVerificationGas := op.preVerificationGas
    gasFees := beBytes 16 op.maxPriorityFeePerGas ++ beBytes 16 op.maxFeePerGas
    paymasterAndData :=
      match op.paymaster with
      | none => []
      | some pf =>
          beBytes 20 pf.paymaster ++ beBytes 16 pf.paymasterVerificationGasLimit ++
            beBytes 16 pf.paymasterPostOpGasLimit ++ pf.paymasterData
    signature := op.signature }

/-- The literal `BigInt("0xFF…FF")` used for the placeholder nonce and
`preVerificationGas`: 62 hexadecimal `F` digits, i.e. 31 bytes of `0xFF`. -/
def randomFillValue : Nat :=
  0xFFFFFFFFFFFFFFFFFFFFFFFFFFFFFFFFFFFFFFFFFFFFFFFFFFFFFFFFFFFFFF

/-- `packedUserOperationToRandomDataUserOp`: the worst-case canonicalizer.
Overwrites the fields unknown at estimation time with placeholder `0xFF`
data, keeping sender, init code and call data.  In the source the byte-string
fields of a `PackedUserOperation` are `Hex` STRINGS (`0x` followed by two hex
digits per byte), so `new Uint8Array(field.length).fill(255)` builds a
placeholder of the hex-string length: `2 * n + 2` bytes of `0xFF` for an
n-byte `paymasterAndData` or `signature`.  This model keeps fields as byte
strings, so the placeholder is `List.replicate (2 * n + 2) 255`. -/
def packedUserOperationToRandomDataUserOp (packedUserOperation : PackedUserOperation) :
    PackedUserOperation :=
  { sender := packedUserOperation.sender
    nonce := randomFillValue
    initCode := packedUserOperation.initCode
    callData := packedUserOperation.callData
    accountGasLimits := List.replicate 32 255
    preVerificationGas := randomFillValue
    gasFees := List.replicate 32 255
    paymasterAndData :=
      List.replicate (2 * packedUserOperation.paymasterAndData.length + 2) 255
    signature := List.replicate (2 * packedUserOperation.signature.length + 2) 255 }

/-- `encodeAbiParameters` specialized to the parameter list used by
`packUserOp`: `(address, uint256, bytes, bytes, bytes32, uint256, bytes32,
bytes, bytes)`.  The head is nine 32-byte words (static values inline,
dynamic `bytes` as byte offsets from the start of the encoding, head size
`9 * 32 = 288`); the tails of the four dynamic `bytes` follow in order. -/
def encodePackedUserOperation (p : PackedUserOperation) : List Nat :=
  beWord p.sender ++
  beWord p.nonce ++
  beWord 288 ++
  beWord (288 + abiBytesLen p.initCode) ++
  p.accountGasLimits ++
  beWord p.preVerificationGas ++
  p.gasFees ++
  beWord (288 + abiBytesLen p.initCode + abiBytesLen p.callData) ++
  beWord (288 + abiBytesLen p.initCode + abiBytesLen p.callData +
    abiBytesLen p.paymasterAndData) ++
  abiBytes p.initCode ++
  abiBytes p.callData ++
  abiBytes p.paymasterAndData ++
  abiBytes p.signature

/-- `packUserOp`: packs the operation, canonicalizes it, and ABI-encodes the
argument list of the source — the random-data sender, nonce, gas words,
`preVerificationGas`, paymaster data and signature, together with the packed
operation's own `initCode` and `callData` (which the canonicalizer leaves
unchanged anyway). -/
def packUserOp (op : UnPackedUserOperation) : List Nat :=
  let packedUserOperation := toPackedUserOperation op
  let randomDataUserOp := packedUserOperationToRandomDataUserOp packedUserOperation
  encodePackedUserOperation
    { randomDataUserOp with
        initCode := packedUserOperation.initCode
        callData := packedUserOperation.callData }

/-- `Math.round` on a (non-negative) number: round half away from zero, i.e.
`⌊x + 1/2⌋` for the values arising here. -/
def jsRound (q : Rat) : Int := ⌊q + 1 / 2⌋

/-- The per-byte calldata cost of the overhead model: `zeroByte` for a zero
byte, `nonZeroByte` otherwise. -/
def byteGasCost (ov : GasOverheads) (b : Nat) : Nat :=
  if b = 0 then ov.zeroByte else ov.nonZeroByte

/-- The `map`/`reduce` byte accounting of `calcDefaultPreVerificationGas`:
the sum of the per-byte costs over a byte string. -/
def bytesGasCost (ov : GasOverheads) (bs : List Nat) : Nat :=
  (bs.map (byteGasCost ov)).sum

/-- The dummy-signature substitution at the head of
`calcDefaultPreVerificationGas`: an empty signature (`"0x"`) is replaced by
`sigSize` bytes of value 1 (`Buffer.alloc(ov.sigSize, 1)`). -/
def fillDummySignature (op : UnPackedUserOperation) (sigSize : Nat) :
    UnPackedUserOperation :=
  { op with signature := if op.signature = [] then List.replicate sigSize 1 else op.signature }

/-- `calcDefaultPreVerificationGas`: merge the overrides into the defaults,
substitute the dummy signature, pack and encode the worst-case operation, and
return `Math.round(callDataCost + fixed / bundleSize + perUserOp +
perUserOpWord * lengthInWord)` where `lengthInWord = (packed.length + 31) /
32` in JavaScript `number` (real-valued) arithmetic. -/
def calcDefaultPreVerificationGas (userOperation : UnPackedUserOperation)
    (overheads : GasOverheadsOverride := {}) : Int :=
  let ov := mergeGasOverheads overheads
  let uop := fillDummySignature userOperation ov.sigSize
  let packed := packUserOp uop
  let lengthInWord : Rat := ((packed.length : Rat) + 31) / 32
  let callDataCost : Nat := bytesGasCost ov packed
  jsRound ((callDataCost : Rat) + (ov.fixed : Rat) / (ov.bundleSize : Rat) +
    (ov.perUserOp : Rat) + (ov.perUserOpWord : Rat) * lengthInWord)

/-- Failures of the fallible calculators.  `rpcError` is a thrown `RpcError`
(raised by this module itself), `transportError` stands for a propagated
RPC/transport failure of the underlying client, and `divisionByZero` is the
`RangeError` a JavaScript BigInt division by zero throws. -/
inductive EstimationError where
  | rpcError (message : String)
  | transportError (code : Nat)
  | divisionByZero
  deriving DecidableEq

/-- The message of the `RpcError` thrown when the latest block has no
`baseFeePerGas`. -/
def missingBaseFeeMessage : String := "block does not have baseFeePerGas"

/-- The gas-price sample returned by the external `getGasPrice`
collaborator. -/
structure GasPriceValues where
  maxFeePerGas : Nat
  maxPriorityFeePerGas : Nat
  deriving DecidableEq

/-- `calcOptimismPreVerificationGas`, with the chain responses passed in
place of the network calls: `baseFeePerGas` of the latest block (`none` for
a block without a base fee), the oracle's `getL1Fee` result for the
serialized worst-case transaction, and the `getGasPrice` sample.  If the
block lacks a base fee the function throws the `RpcError` before the oracle
and gas-price calls; otherwise it returns `staticFee + l1Fee / l2price`
where `l2price = min(maxFeePerGas, baseFeePerGas + maxPriorityFeePerGas)`
(BigInt floor division of non-negative values; division by a zero `l2price`
throws). -/
def calcOptimismPreVerificationGas (baseFeePerGas : Option Nat) (l1Fee : Nat)
    (gasPrice : GasPriceValues) (staticFee : Int) : Except EstimationError Int :=
  match baseFeePerGas with
  | none => .error (.rpcError missingBaseFeeMessage)
  | some baseFee =>
      let l2MaxFee := gasPrice.maxFeePerGas
      let l2PriorityFee := baseFee + gasPrice.maxPriorityFeePerGas
      let l2price := if l2MaxFee < l2PriorityFee then l2MaxFee else l2PriorityFee
      if l2price = 0 then .error .divisionByZero
      else .ok (staticFee + (l1Fee / l2price : Nat))

/-- `calcArbitrumPreVerificationGas`, with the precompile's
`gasEstimateL1Component` response tuple `(gasEstimateForL1, baseFee,
l1BaseFeeEstimate)` passed in place of the network call: the result is
`result[0] + staticFee`. -/
def calcArbitrumPreVerificationGas (gasEstimateL1Component : Nat × Nat × Nat)
    (staticFee : Int) : Int :=
  (gasEstimateL1Component.1 : Int) + staticFee

/-- `calcPreVerificationGas`: the chain dispatcher.  The two rollup
calculators are passed as functions of the static fee (they are network
calls; a branch that never applies its function performs no network call).
Chain identifiers are the constants from `viem/chains` used by the source:
optimism 10, optimismSepolia 11155420, optimismGoerli 420, base 8453,
baseGoerli 84531, baseSepolia 84532, opBNB 204, opBNBTestnet 5611, Lyra 957,
arbitrum 42161. -/
def calcPreVerificationGas (optimismCalc arbitrumCalc : Int → Int)
    (chainId : Nat) (userOperation : UnPackedUserOperation)
    (overheads : GasOverheadsOverride := {}) : Int :=
  let preVerificationGas := calcDefaultPreVerificationGas userOperation overheads
  if chainId = 59140 ∨ chainId = 59142 then
    preVerificationGas * 2
  else if chainId = 10 ∨ chainId = 11155420 ∨ chainId = 420 ∨ chainId = 8453 ∨
      chainId = 84531 ∨ chainId = 84532 ∨ chainId = 204 ∨ chainId = 5611 ∨
      chainId = 957 then
    optimismCalc preVerificationGas
  else if chainId = 42161 then
    arbitrumCalc preVerificationGas
  else
    preVerificationGas

/-- The simulation result consumed by the limit deriver. -/
structure ExecutionResult where
  preOpGas : Int
  paid : Int
  deriving DecidableEq

/-- `calcVerificationGasAndCallGasLimit`, with the conditionally fetched
block base fee passed as a parameter (`none` when the block has no
`baseFeePerGas`, in which case the source substitutes `0n`).
`verificationGasLimit = (preOpGas - preVerificationGas) * 3 / 2` in BigInt
(truncating) division; the effective gas price is `maxFeePerGas` when the two
fee fields are equal and otherwise `min(maxFeePerGas, maxPriorityFeePerGas +
blockBaseFee)`; `callGasLimit = max(paid / gasPrice - preOpGas + 21000 +
50000, 9000)`, marked up by `* 110n / 100n` on the Base family (8453, 84531,
84532).  A zero gas price makes `paid / gasPrice` throw. -/
def calcVerificationGasAndCallGasLimit (blockBaseFeePerGas : Option Int)
    (userOperation : UnPackedUserOperation) (executionResult : ExecutionResult)
    (chainId : Nat) : Except EstimationError (Int × Int) :=
  let verificationGasLimit :=
    Int.tdiv ((executionResult.preOpGas - (userOperation.preVerificationGas : Int)) * 3) 2
  let gasPrice : Int :=
    if userOperation.maxPriorityFeePerGas = userOperation.maxFeePerGas then
      (userOperation.maxFeePerGas : Int)
    else if (userOperation.maxFeePerGas : Int) <
        blockBaseFeePerGas.getD 0 + (userOperation.maxPriorityFeePerGas : Int) then
      (userOperation.maxFeePerGas : Int)
    else
      (userOperation.maxPriorityFeePerGas : Int) + blockBaseFeePerGas.getD 0
  if gasPrice = 0 then .error .divisionByZero
  else
    let calculatedCallGasLimit :=
      Int.tdiv executionResult.paid gasPrice - executionResult.preOpGas + 21000 + 50000
    let callGasLimit :=
      if calculatedCallGasLimit > 9000 then calculatedCallGasLimit else 9000
    let callGasLimit' :=
      if chainId = 84531 ∨ chainId = 84532 ∨ chainId = 8453 then
        Int.tdiv (110 * callGasLimit) 100
      else callGasLimit
    .ok (verificationGasLimit, callGasLimit')

/-- The viem error shapes `parseViemError` distinguishes: the two wrapper
shapes carry their `cause`; the remaining constructors are the cause kinds
checked by `instanceof`, plus `otherError` for any unrelated error. -/
inductive ViemError where
  | nonceTooLowError
  | feeCapTooLowError
  | insufficientFundsError
  | intrinsicGasTooLowError
  | contractFunctionRevertedError
  | estimateGasExecutionError
  | contractFunctionExecutionError (cause : ViemError)
  | transactionExecutionError (cause : ViemError)
  | otherError (code : Nat)
  deriving DecidableEq

/-- The six `instanceof` checks applied to the wrapped cause. -/
def isKnownCause : ViemError → Bool
  | .nonceTooLowError => true
  | .feeCapTooLowError => true
  | .insufficientFundsError => true
  | .intrinsicGasTooLowError => true
  | .contractFunctionRevertedError => true
  | .estimateGasExecutionError => true
  | _ => false

/-- `parseViemError`: unwrap a `ContractFunctionExecutionError` or
`TransactionExecutionError` and return its cause when the cause is one of
the six known kinds; return `undefined` (here `none`) for every other outer
shape and for an unmatched cause. -/
def parseViemError (err : ViemError) : Option ViemError :=
  match err with
  | .contractFunctionExecutionError e =>
      if isKnownCause e then some e else none
  | .transactionExecutionError e =>
      if isKnownCause e then some e else none
  | _ => none

/-- The worst-case encoding the overhead model prices: the packed, dummy-
signed, canonicalized operation in the packed byte layout. -/
def worstCaseEncoding (op : UnPackedUserOperation) (ov : GasOverheads) : List Nat :=
  packUserOp (fillDummySignature op ov.sigSize)

/-- The `paymasterAndData` byte length of the packed form of an operation;
the canonicalizer's placeholder for it has `2 * wcPaymasterLen op + 2`
bytes (the hex-string length). -/
def wcPaymasterLen (op : UnPackedUserOperation) : Nat :=
  (toPackedUserOperation op).paymasterAndData.length

/-- The signature byte length after the dummy-signature substitution; the
canonicalizer's placeholder for it has `2 * wcSignatureLen op ov + 2` bytes
(the hex-string length). -/
def wcSignatureLen (op : UnPackedUserOperation) (ov : GasOverheads) : Nat :=
  (fillDummySignature op ov.sigSize).signature.length

/-- The `verificationGasLimit` the spec claims: `(preOpGas -
preVerificationGas) * 3 / 2` with floor division. -/
def specFloorVerificationGasLimit (preOpGas preVerificationGas : Int) : Int :=
  Int.fdiv ((preOpGas - preVerificationGas) * 3) 2

/-- The `verificationGasLimit` the code computes: the same quotient with
BigInt (truncating) division. -/
def specTruncVerificationGasLimit (preOpGas preVerificationGas : Int) : Int :=
  Int.tdiv ((preOpGas - preVerificationGas) * 3) 2

/-- The effective gas price of the limit deriver: `maxFeePerGas` when the
two fee fields coincide, otherwise `min(maxFeePerGas, maxPriorityFeePerGas +
baseFee)` with an absent base fee read as 0. -/
def effectiveGasPrice (blockBaseFeePerGas : Option Int) (op : UnPackedUserOperation) : Int :=
  if op.maxPriorityFeePerGas = op.maxFeePerGas then (op.maxFeePerGas : Int)
  else min (op.maxFeePerGas : Int) ((op.maxPriorityFeePerGas : Int) + blockBaseFeePerGas.getD 0)

/-- The `callGasLimit` of the limit deriver as the spec phrases it:
`max(paid / gasPrice - preOpGas + 21000 + 50000, 9000)` (quotient truncating,
equal to floor on non-negative operands), with the Base-family markup
`* 110 / 100` applied afterwards. -/
def specCallGasLimit (gasPrice : Int) (executionResult : ExecutionResult)
    (chainId : Nat) : Int :=
  let limit := max (Int.tdiv executionResult.paid gasPrice - executionResult.preOpGas +
    21000 + 50000) 9000
  if chainId = 84531 ∨ chainId = 84532 ∨ chainId = 8453 then Int.tdiv (110 * limit) 100
  else limit

/-- The "double-cost" chain identifiers (the two Linea testnets). -/
def doubleCostChainIds : List Nat := [59140, 59142]

/-- The Optimism-stack chain identifiers dispatched to the Optimism
calculator. -/
def optimismStackChainIds : List Nat :=
  [10, 11155420, 420, 8453, 84531, 84532, 204, 5611, 957]

/-- The Arbitrum One chain identifier. -/
def arbitrumChainId : Nat := 42161

/-- A minimal sample operation: everything zero or empty, no paymaster. -/
def sampleOp : UnPackedUserOperation :=
  { sender := 0
    nonce := 0
    initCode := []
    callData := []
    verificationGasLimit := 0
    callGasLimit := 0
    preVerificationGas := 0
    maxFeePerGas := 0
    maxPriorityFeePerGas := 0
    paymaster := none
    signature := [] }

/-- A sample packed operation with nontrivial field contents. -/
def samplePackedOp : PackedUserOperation :=
  { sender := 1
    nonce := 7
    initCode := [0, 1]
    callData := [2]
    accountGasLimits := List.replicate 32 0
    preVerificationGas := 5
    gasFees := List.replicate 32 0
    paymasterAndData := [9, 9, 9]
    signature := [1, 2, 3, 4] }

theorem bytesGasCost_append (ov : GasOverheads) (a b : List Nat) :
    bytesGasCost ov (a ++ b) = bytesGasCost ov a + bytesGasCost ov b := by
  simp [bytesGasCost]

theorem bytesGasCost_replicate (ov : GasOverheads) (k x : Nat) :
    bytesGasCost ov (List.replicate k x) = k * byteGasCost ov x := by
  simp [bytesGasCost, List.map_replicate, List.sum_replicate, smul_eq_mul]

theorem length_beBytes (k n : Nat) : (beBytes k n).length = k := by
  simp [beBytes]

theorem length_beWord (n : Nat) : (beWord n).length = 32 := length_beBytes 32 n

theorem le_roundUp32 (n : Nat) : n ≤ roundUp32 n := by
  unfold roundUp32; omega

theorem roundUp32_mono {m n : Nat} (h : m ≤ n) : roundUp32 m ≤ roundUp32 n := by
  unfold roundUp32
  have := Nat.div_le_div_right (c := 32) (Nat.add_le_add_right h 31)
  omega

theorem length_padRight32 (bs : List Nat) :
    (padRight32 bs).length = roundUp32 bs.length := by
  have := le_roundUp32 bs.length
  simp [padRight32]; omega

theorem length_abiBytes (bs : List Nat) :
    (abiBytes bs).length = abiBytesLen bs := by
  simp [abiBytes, abiBytesLen, length_beWord, length_padRight32]

theorem default_cost_lower (bs : List Nat) :
    4 * bs.length ≤ bytesGasCost DefaultGasOverheads bs := by
  induction bs with
  | nil => simp [bytesGasCost]
  | cons b t ih =>
      have hb : 4 ≤ byteGasCost DefaultGasOverheads b := by
        unfold byteGasCost; split <;> decide
      simp only [bytesGasCost, List.map_cons, List.sum_cons, List.length_cons] at ih ⊢
      omega

theorem padRight32_cost_mono (a s : List Nat) :
    bytesGasCost DefaultGasOverheads (padRight32 a) ≤
      bytesGasCost DefaultGasOverheads (padRight32 (a ++ s)) := by
  unfold padRight32
  simp only [bytesGasCost_append, bytesGasCost_replicate, List.length_append]
  have hs := default_cost_lower s
  have h1 := le_roundUp32 a.length
  have h2 := le_roundUp32 (a.length + s.length)
  have h3 := roundUp32_mono (Nat.le_add_right a.length s.length)
  have hz : byteGasCost DefaultGasOverheads 0 = 4 := rfl
  rw [hz]
  omega

theorem merge_default : mergeGasOverheads {} = DefaultGasOverheads := rfl

theorem calcDefault_formula (op : UnPackedUserOperation) (ovp : GasOverheadsOverride) :
    calcDefaultPreVerificationGas op ovp =
      jsRound ((bytesGasCost (mergeGasOverheads ovp)
          (worstCaseEncoding op (mergeGasOverheads ovp)) : Rat) +
        ((mergeGasOverheads ovp).fixed : Rat) / ((mergeGasOverheads ovp).bundleSize : Rat) +
        ((mergeGasOverheads ovp).perUserOp : Rat) +
        ((mergeGasOverheads ovp).perUserOpWord : Rat) *
          ((((worstCaseEncoding op (mergeGasOverheads ovp)).length : Rat) + 31) / 32)) := rfl

theorem worstCaseEncoding_eq (op : UnPackedUserOperation) (ov : GasOverheads) :
    worstCaseEncoding op ov =
      beWord op.sender ++ beWord randomFillValue ++ beWord 288 ++
      beWord (288 + abiBytesLen op.initCode) ++ List.replicate 32 255 ++
      beWord randomFillValue ++ List.replicate 32 255 ++
      beWord (288 + abiBytesLen op.initCode + abiBytesLen op.callData) ++
      beWord (288 + abiBytesLen op.initCode + abiBytesLen op.callData +
        abiBytesLen (List.replicate (2 * wcPaymasterLen op + 2) 255)) ++
      abiBytes op.initCode ++ abiBytes op.callData ++
      abiBytes (List.replicate (2 * wcPaymasterLen op + 2) 255) ++
      abiBytes (List.replicate (2 * wcSignatureLen op ov + 2) 255) := by
  simp only [worstCaseEncoding, packUserOp, encodePackedUserOperation,
    packedUserOperationToRandomDataUserOp, toPackedUserOperation, fillDummySignature,
    wcPaymasterLen, wcSignatureLen]

theorem jsRound_mono {a b : Rat} (h : a ≤ b) : jsRound a ≤ jsRound b := by
  unfold jsRound
  exact Int.floor_le_floor (by gcongr)

theorem calcDefault_mono_of (op1 op2 : UnPackedUserOperation)
    (hc : bytesGasCost DefaultGasOverheads (worstCaseEncoding op1 DefaultGasOverheads) ≤
      bytesGasCost DefaultGasOverheads (worstCaseEncoding op2 DefaultGasOverheads))
    (hl : (worstCaseEncoding op1 DefaultGasOverheads).length ≤
      (worstCaseEncoding op2 DefaultGasOverheads).length) :
    calcDefaultPreVerificationGas op1 {} ≤ calcDefaultPreVerificationGas op2 {} := by
  rw [calcDefault_formula, calcDefault_formula, merge_default]
  apply jsRound_mono
  generalize worstCaseEncoding op1 DefaultGasOverheads = e1 at hc hl ⊢
  generalize worstCaseEncoding op2 DefaultGasOverheads = e2 at hc hl ⊢
  generalize bytesGasCost DefaultGasOverheads e1 = c1 at hc ⊢
  generalize bytesGasCost DefaultGasOverheads e2 = c2 at hc ⊢
  generalize e1.length = l1 at hl ⊢
  generalize e2.length = l2 at hl ⊢
  have hc' : (c1 : Rat) ≤ (c2 : Rat) := Nat.cast_le.mpr hc
  have hl' : (l1 : Rat) ≤ (l2 : Rat) := Nat.cast_le.mpr hl
  have hdiv : ((l1 : Rat) + 31) / 32 ≤ ((l2 : Rat) + 31) / 32 := by gcongr
  simp only [DefaultGasOverheads]
  push_cast
  linarith

theorem wc_cost_mono_callData (op : UnPackedUserOperation) (s : List Nat)
    (h1 : bytesGasCost DefaultGasOverheads (beWord op.callData.length) ≤
      bytesGasCost DefaultGasOverheads (beWord (op.callData ++ s).length))
    (h2 : bytesGasCost DefaultGasOverheads
        (beWord (288 + abiBytesLen op.initCode + abiBytesLen op.callData)) ≤
      bytesGasCost DefaultGasOverheads
        (beWord (288 + abiBytesLen op.initCode + abiBytesLen (op.callData ++ s))))
    (h3 : bytesGasCost DefaultGasOverheads
        (beWord (288 + abiBytesLen op.initCode + abiBytesLen op.callData +
          abiBytesLen (List.replicate (2 * wcPaymasterLen op + 2) 255))) ≤
      bytesGasCost DefaultGasOverheads
        (beWord (288 + abiBytesLen op.initCode + abiBytesLen (op.callData ++ s) +
          abiBytesLen (List.replicate (2 * wcPaymasterLen op + 2) 255)))) :
    bytesGasCost DefaultGasOverheads (worstCaseEncoding op DefaultGasOverheads) ≤
      bytesGasCost DefaultGasOverheads
        (worstCaseEncoding { op with callData := op.callData ++ s } DefaultGasOverheads) := by
  have hic : ({ op with callData := op.callData ++ s } : UnPackedUserOperation).initCode =
    op.initCode := rfl
  have hcd : ({ op with callData := op.callData ++ s } : UnPackedUserOperation).callData =
    op.callData ++ s := rfl
  have hsd : ({ op with callData := op.callData ++ s } : UnPackedUserOperation).sender =
    op.sender := rfl
  have hpm : wcPaymasterLen { op with callData := op.callData ++ s } = wcPaymasterLen op := rfl
  have hsg : wcSignatureLen { op with callData := op.callData ++ s } DefaultGasOverheads =
    wcSignatureLen op DefaultGasOverheads := rfl
  rw [worstCaseEncoding_eq, worstCaseEncoding_eq, hic, hcd, hsd, hpm, hsg]
  simp only [abiBytes, bytesGasCost_append]
  have hpad := padRight32_cost_mono op.callData s
  omega

theorem wc_len_mono_callData (op : UnPackedUserOperation) (s : List Nat) :
    (worstCaseEncoding op DefaultGasOverheads).length ≤
      (worstCaseEncoding { op with callData := op.callData ++ s }
        DefaultGasOverheads).length := by
  have hic : ({ op with callData := op.callData ++ s } : UnPackedUserOperation).initCode =
    op.initCode := rfl
  have hcd : ({ op with callData := op.callData ++ s } : UnPackedUserOperation).callData =
    op.callData ++ s := rfl
  have hsd : ({ op with callData := op.callData ++ s } : UnPackedUserOperation).sender =
    op.sender := rfl
  have hpm : wcPaymasterLen { op with callData := op.callData ++ s } = wcPaymasterLen op := rfl
  have hsg : wcSignatureLen { op with callData := op.callData ++ s } DefaultGasOverheads =
    wcSignatureLen op DefaultGasOverheads := rfl
  rw [worstCaseEncoding_eq, worstCaseEncoding_eq, hic, hcd, hsd, hpm, hsg]
  have hr := roundUp32_mono (Nat.le_add_right op.callData.length s.length)
  simp only [List.length_append, length_beWord, List.length_replicate, length_abiBytes,
    abiBytesLen]
  omega

theorem wc_cost_mono_initCode (op : UnPackedUserOperation) (s : List Nat)
    (h1 : bytesGasCost DefaultGasOverheads (beWord op.initCode.length) ≤
      bytesGasCost DefaultGasOverheads (beWord (op.initCode ++ s).length))
    (h2 : bytesGasCost DefaultGasOverheads (beWord (288 + abiBytesLen op.initCode)) ≤
      bytesGasCost DefaultGasOverheads (beWord (288 + abiBytesLen (op.initCode ++ s))))
    (h3 : bytesGasCost DefaultGasOverheads
        (beWord (288 + abiBytesLen op.initCode + abiBytesLen op.callData)) ≤
      bytesGasCost DefaultGasOverheads
        (beWord (288 + abiBytesLen (op.initCode ++ s) + abiBytesLen op.callData)))
    (h4 : bytesGasCost DefaultGasOverheads
        (beWord (288 + abiBytesLen op.initCode + abiBytesLen op.callData +
          abiBytesLen (List.replicate (2 * wcPaymasterLen op + 2) 255))) ≤
      bytesGasCost DefaultGasOverheads
        (beWord (288 + abiBytesLen (op.initCode ++ s) + abiBytesLen op.callData +
          abiBytesLen (List.replicate (2 * wcPaymasterLen op + 2) 255)))) :
    bytesGasCost DefaultGasOverheads (worstCaseEncoding op DefaultGasOverheads) ≤
      bytesGasCost DefaultGasOverheads
        (worstCaseEncoding { op with initCode := op.initCode ++ s } DefaultGasOverheads) := by
  have hic : ({ op with initCode := op.initCode ++ s } : UnPackedUserOperation).initCode =
    op.initCode ++ s := rfl
  have hcd : ({ op with initCode := op.initCode ++ s } : UnPackedUserOperation).callData =
    op.callData := rfl
  have hsd : ({ op with initCode := op.initCode ++ s } : UnPackedUserOperation).sender =
    op.sender := rfl
  have hpm : wcPaymasterLen { op with initCode := op.initCode ++ s } = wcPaymasterLen op := rfl
  have hsg : wcSignatureLen { op with initCode := op.initCode ++ s } DefaultGasOverheads =
    wcSignatureLen op DefaultGasOverheads := rfl
  rw [worstCaseEncoding_eq, worstCaseEncoding_eq, hic, hcd, hsd, hpm, hsg]
  simp only [abiBytes, bytesGasCost_append]
  have hpad := padRight32_cost_mono op.initCode s
  omega

theorem wc_len_mono_initCode (op : UnPackedUserOperation) (s : List Nat) :
    (worstCaseEncoding op DefaultGasOverheads).length ≤
      (worstCaseEncoding { op with initCode := op.initCode ++ s }
        DefaultGasOverheads).length := by
  have hic : ({ op with initCode := op.initCode ++ s } : UnPackedUserOperation).initCode =
    op.initCode ++ s := rfl
  have hcd : ({ op with initCode := op.initCode ++ s } : UnPackedUserOperation).callData =
    op.callData := rfl
  have hsd : ({ op with initCode := op.initCode ++ s } : UnPackedUserOperation).sender =
    op.sender := rfl
  have hpm : wcPaymasterLen { op with initCode := op.initCode ++ s } = wcPaymasterLen op := rfl
  have hsg : wcSignatureLen { op with initCode := op.initCode ++ s } DefaultGasOverheads =
    wcSignatureLen op DefaultGasOverheads := rfl
  rw [worstCaseEncoding_eq, worstCaseEncoding_eq, hic, hcd, hsd, hpm, hsg]
  have hr := roundUp32_mono (Nat.le_add_right op.initCode.length s.length)
  simp only [List.length_append, length_beWord, List.length_replicate, length_abiBytes,
    abiBytesLen]
  omega

/-- Claim C2, amended: the worst-case canonicalizer overwrites exactly
nonce, both gas-limit words, `preVerificationGas`, paymasterAndData and
signature, keeping sender, init code and call data; the gas-limit words are
32 bytes of `0xFF` — but the nonce and `preVerificationGas` placeholder is
the 31-byte (248-bit) value `2^248 - 1` (the source literal has 62 `F`
digits), not a 256-bit one, and the paymasterAndData and signature
placeholders are all-`0xFF` strings of the HEX-STRING length of the real
field, `2 * n + 2` bytes for an n-byte field (`new Uint8Array(hex.length)`),
not of its byte length. -/
theorem C2_amended (p : PackedUserOperation) :
    packedUserOperationToRandomDataUserOp p =
      { sender := p.sender
        nonce := 2 ^ 248 - 1
        initCode := p.initCode
        callData := p.callData
        accountGasLimits := List.replicate 32 255
        preVerificationGas := 2 ^ 248 - 1
        gasFees := List.replicate 32 255
        paymasterAndData := List.replicate (2 * p.paymasterAndData.length + 2) 255
        signature := List.replicate (2 * p.signature.length + 2) 255 } := by
  have h : randomFillValue = 2 ^ 248 - 1 := by decide
  simp [packedUserOperationToRandomDataUserOp, h]

/-- Claim C2, counterexample: on a concrete packed operation (3-byte
paymasterAndData, 4-byte signature) the canonicalizer writes `2^248 - 1`
for nonce and `preVerificationGas`, not the claimed 256-bit `2^256 - 1`,
and `0xFF`-placeholders of 8 and 10 bytes (`2 * n + 2`, the hex-string
lengths), not of the claimed original byte lengths 3 and 4. -/
theorem C2_counterexample :
    (packedUserOperationToRandomDataUserOp samplePackedOp).nonce = 2 ^ 248 - 1 ∧
    (packedUserOperationToRandomDataUserOp samplePackedOp).nonce ≠ 2 ^ 256 - 1 ∧
    (packedUserOperationToRandomDataUserOp samplePackedOp).preVerificationGas ≠
      2 ^ 256 - 1 ∧
    (packedUserOperationToRandomDataUserOp samplePackedOp).paymasterAndData.length = 8 ∧
    (packedUserOperationToRandomDataUserOp samplePackedOp).paymasterAndData.length ≠
      samplePackedOp.paymasterAndData.length ∧
    (packedUserOperationToRandomDataUserOp samplePackedOp).signature.length = 10 ∧
    (packedUserOperationToRandomDataUserOp samplePackedOp).signature.length ≠
      samplePackedOp.signature.length := by
  refine ⟨by decide, by decide, by decide, by decide, by decide, by decide, by decide⟩

/-- Claim C3: the dispatcher routes every chain id to exactly one branch.
For both double-cost ids (the statement holds for every pair of calculator
functions, so no calculator — hence no network call — is involved) the
result is exactly twice the §4.1 baseline; for every Optimism-stack id it is
the Optimism calculator applied to the baseline as static fee; for the
Arbitrum id the Arbitrum calculator applied to the baseline; for every other
id the baseline unchanged. -/
theorem C3_chain_dispatch (optimismCalc arbitrumCalc : Int → Int) (chainId : Nat)
    (op : UnPackedUserOperation) (ovp : GasOverheadsOverride) :
    (chainId ∈ doubleCostChainIds →
      calcPreVerificationGas optimismCalc arbitrumCalc chainId op ovp =
        calcDefaultPreVerificationGas op ovp * 2) ∧
    (chainId ∈ optimismStackChainIds →
      calcPreVerificationGas optimismCalc arbitrumCalc chainId op ovp =
        optimismCalc (calcDefaultPreVerificationGas op ovp)) ∧
    (chainId = arbitrumChainId →
      calcPreVerificationGas optimismCalc arbitrumCalc chainId op ovp =
        arbitrumCalc (calcDefaultPreVerificationGas op ovp)) ∧
    (chainId ∉ doubleCostChainIds → chainId ∉ optimismStackChainIds →
      chainId ≠ arbitrumChainId →
      calcPreVerificationGas optimismCalc arbitrumCalc chainId op ovp =
        calcDefaultPreVerificationGas op ovp) := by
  refine ⟨?_, ?_, ?_, ?_⟩
  · intro h
    simp only [doubleCostChainIds, List.mem_cons, List.not_mem_nil, or_false] at h
    rcases h with h | h <;> subst h <;> rfl
  · intro h
    simp only [optimismStackChainIds, List.mem_cons, List.not_mem_nil, or_false] at h
    rcases h with h | h | h | h | h | h | h | h | h <;> subst h <;> rfl
  · intro h
    subst h
    rfl
  · intro h1 h2 h3
    simp only [doubleCostChainIds, List.mem_cons, List.not_mem_nil, or_false,
      not_or] at h1
    simp only [optimismStackChainIds, List.mem_cons, List.not_mem_nil, or_false,
      not_or] at h2
    simp only [arbitrumChainId] at h3
    simp only [calcPreVerificationGas]
    rw [if_neg (by omega), if_neg (by omega), if_neg (by omega)]

/-- Claim C3, witness: concrete dispatches for a double-cost id (59140), an
Optimism-stack id (10), the Arbitrum id (42161) and a default id (1). -/
theorem C3_chain_dispatch_witness :
    calcPreVerificationGas (fun x => x + 7) (fun x => x + 9) 59140 sampleOp {} =
      calcDefaultPreVerificationGas sampleOp {} * 2 ∧
    calcPreVerificationGas (fun x => x + 7) (fun x => x + 9) 10 sampleOp {} =
      calcDefaultPreVerificationGas sampleOp {} + 7 ∧
    calcPreVerificationGas (fun x => x + 7) (fun x => x + 9) 42161 sampleOp {} =
      calcDefaultPreVerificationGas sampleOp {} + 9 ∧
    calcPreVerificationGas (fun x => x + 7) (fun x => x + 9) 1 sampleOp {} =
      calcDefaultPreVerificationGas sampleOp {} :=
  ⟨(C3_chain_dispatch (fun x => x + 7) (fun x => x + 9) 59140 sampleOp {}).1 (by decide),
   (C3_chain_dispatch (fun x => x + 7) (fun x => x + 9) 10 sampleOp {}).2.1 (by decide),
   (C3_chain_dispatch (fun x => x + 7) (fun x => x + 9) 42161 sampleOp {}).2.2.1 (by decide),
   (C3_chain_dispatch (fun x => x + 7) (fun x => x + 9) 1 sampleOp {}).2.2.2
     (by decide) (by decide) (by decide)⟩

/-- Claim C4: with a block base fee `B`, oracle fee `F`, gas-price sample
`(A, C)` and a non-zero divisor, the Optimism calculator returns
`staticFee + F / min(A, B + C)` (floor division); when `A ≥ B + C` this is
`staticFee + F / (B + C)`, and when `A < B + C` it is `staticFee + F / A`. -/
theorem C4_optimism_formula (F A B C : Nat) (staticFee : Int)
    (h : min A (B + C) ≠ 0) :
    calcOptimismPreVerificationGas (some B) F ⟨A, C⟩ staticFee =
      .ok (staticFee + (F / min A (B + C) : Nat)) ∧
    (B + C ≤ A →
      calcOptimismPreVerificationGas (some B) F ⟨A, C⟩ staticFee =
        .ok (staticFee + (F / (B + C) : Nat))) ∧
    (A < B + C →
      calcOptimismPreVerificationGas (some B) F ⟨A, C⟩ staticFee =
        .ok (staticFee + (F / A : Nat))) := by
  rcases Nat.lt_or_ge A (B + C) with hlt | hge
  · have hA : ¬A = 0 := by omega
    have hmin : min A (B + C) = A := by omega
    refine ⟨?_, fun hge2 => absurd hge2 (by omega), fun _ => ?_⟩
    · simp [calcOptimismPreVerificationGas, hlt, hA, hmin]
    · simp [calcOptimismPreVerificationGas, hlt, hA]
  · have hBC : ¬B + C = 0 := by omega
    have hnlt : ¬A < B + C := by omega
    have hmin : min A (B + C) = B + C := by omega
    refine ⟨?_, fun _ => ?_, fun hlt2 => absurd hlt2 (by omega)⟩
    · simp [calcOptimismPreVerificationGas, hnlt, hBC, hmin]
    · simp [calcOptimismPreVerificationGas, hnlt, hBC]

/-- Claim C4, witness: `F = 10, A = 5, B = 1, C = 2` with static fee 7:
`A ≥ B + C`, so the result is `7 + 10 / 3` both via the `min` form and the
case form. -/
theorem C4_optimism_formula_witness :
    calcOptimismPreVerificationGas (some 1) 10 ⟨5, 2⟩ 7 =
      .ok (7 + (10 / min 5 (1 + 2) : Nat)) ∧
    calcOptimismPreVerificationGas (some 1) 10 ⟨5, 2⟩ 7 =
      .ok (7 + (10 / (1 + 2) : Nat)) :=
  ⟨(C4_optimism_formula 10 5 1 2 7 (by decide)).1,
   (C4_optimism_formula 10 5 1 2 7 (by decide)).2.1 (by decide)⟩

/-- Claim C5: the Arbitrum calculator returns exactly
`staticFee + gasEstimateForL1`, independent of the second and third elements
of the precompile's response tuple. -/
theorem C5_arbitrum_formula (gasEstimateForL1 baseFee l1BaseFeeEstimate : Nat)
    (staticFee : Int) :
    calcArbitrumPreVerificationGas (gasEstimateForL1, baseFee, l1BaseFeeEstimate)
        staticFee = staticFee + gasEstimateForL1 ∧
    ∀ baseFee2 l1BaseFeeEstimate2 : Nat,
      calcArbitrumPreVerificationGas (gasEstimateForL1, baseFee, l1BaseFeeEstimate)
          staticFee =
        calcArbitrumPreVerificationGas (gasEstimateForL1, baseFee2, l1BaseFeeEstimate2)
          staticFee := by
  constructor
  · simp [calcArbitrumPreVerificationGas]
    omega
  · intro _ _
    rfl

theorem code_gasPrice_eq (blockBaseFeePerGas : Option Int) (op : UnPackedUserOperation) :
    (if op.maxPriorityFeePerGas = op.maxFeePerGas then (op.maxFeePerGas : Int)
     else if (op.maxFeePerGas : Int) <
         blockBaseFeePerGas.getD 0 + (op.maxPriorityFeePerGas : Int) then
       (op.maxFeePerGas : Int)
     else (op.maxPriorityFeePerGas : Int) + blockBaseFeePerGas.getD 0) =
      effectiveGasPrice blockBaseFeePerGas op := by
  unfold effectiveGasPrice
  split_ifs <;> omega

/-- Claim C6, amended: for every operation, simulation result and chain id,
whenever the effective gas price is non-zero the limit deriver returns
`verificationGasLimit = (preOpGas - preVerificationGas) * 3 / 2` and
`callGasLimit = max(paid / gasPrice - preOpGas + 21000 + 50000, 9000)` (Base
family marked up by `* 110 / 100`), with every division TRUNCATING toward
zero (BigInt semantics) — equal to the claimed floor on non-negative
dividends but not in general — and with `gasPrice` as the claim states it
(`maxFeePerGas` when the fee fields agree, else `min(maxFeePerGas,
maxPriorityFeePerGas + baseFee)`, absent base fee read as 0). -/
theorem C6_amended (blockBaseFeePerGas : Option Int) (op : UnPackedUserOperation)
    (executionResult : ExecutionResult) (chainId : Nat)
    (h : effectiveGasPrice blockBaseFeePerGas op ≠ 0) :
    calcVerificationGasAndCallGasLimit blockBaseFeePerGas op executionResult chainId =
      .ok (specTruncVerificationGasLimit executionResult.preOpGas
          (op.preVerificationGas : Int),
        specCallGasLimit (effectiveGasPrice blockBaseFeePerGas op) executionResult
          chainId) := by
  simp only [calcVerificationGasAndCallGasLimit, code_gasPrice_eq]
  rw [if_neg h]
  unfold specTruncVerificationGasLimit specCallGasLimit
  have hmax : (if Int.tdiv executionResult.paid (effectiveGasPrice blockBaseFeePerGas op) -
        executionResult.preOpGas + 21000 + 50000 > 9000 then
      Int.tdiv executionResult.paid (effectiveGasPrice blockBaseFeePerGas op) -
        executionResult.preOpGas + 21000 + 50000
    else 9000) =
      max (Int.tdiv executionResult.paid (effectiveGasPrice blockBaseFeePerGas op) -
        executionResult.preOpGas + 21000 + 50000) 9000 := by
    split_ifs <;> omega
  rw [hmax]

/-- Claim C6, counterexample: at `preOpGas = 0`, `preVerificationGas = 1`,
`paid = 10^7`, equal fee fields 100 and chain id 1, the code returns
`verificationGasLimit = -1` (BigInt division truncates `-3 / 2` toward
zero), while the claimed floor division gives `-2`. -/
theorem C6_counterexample :
    calcVerificationGasAndCallGasLimit none
        { sampleOp with
          preVerificationGas := 1
          maxFeePerGas := 100
          maxPriorityFeePerGas := 100 } ⟨0, 10000000⟩ 1 =
      .ok (-1, 171000) ∧
    specFloorVerificationGasLimit 0 1 = -2 ∧ (-1 : Int) ≠ -2 := by
  refine ⟨by rfl, by decide, by decide⟩

/-- Claim C6, witness: the spec §8 example — `preOpGas = 100000`,
`preVerificationGas = 40000`, `paid = 10^7`, equal fee fields 100 —
yields `verificationGasLimit = 90000` and `callGasLimit = 71000`. -/
theorem C6_amended_witness :
    calcVerificationGasAndCallGasLimit (some 0)
        { sampleOp with
          preVerificationGas := 40000
          maxFeePerGas := 100
          maxPriorityFeePerGas := 100 } ⟨100000, 10000000⟩ 1 =
      .ok (90000, 71000) := by
  rw [C6_amended (some 0)
    { sampleOp with
      preVerificationGas := 40000
      maxFeePerGas := 100
      maxPriorityFeePerGas := 100 } ⟨100000, 10000000⟩ 1 (by decide)]
  rfl

/-- Claim C8: the error normalizer is total (a Lean function never raises),
returns a classification only when the outer error is one of the two
execution-failure wrappers and its direct cause is one of the six known
kinds (no false positives), classifies a wrapped nonce-too-low cause as that
cause, and returns the unclassified outcome (`none`) for any other outer
shape or unmatched cause. -/
theorem C8_parse_viem_error :
    (∀ e c, parseViemError e = some c → isKnownCause c = true ∧
      (e = ViemError.contractFunctionExecutionError c ∨
        e = ViemError.transactionExecutionError c)) ∧
    parseViemError (.transactionExecutionError .nonceTooLowError) =
      some ViemError.nonceTooLowError ∧
    parseViemError (.contractFunctionExecutionError .nonceTooLowError) =
      some ViemError.nonceTooLowError ∧
    parseViemError (.transactionExecutionError (.otherError 0)) = none ∧
    parseViemError (.transactionExecutionError
      (.transactionExecutionError .nonceTooLowError)) = none ∧
    parseViemError (.otherError 0) = none ∧
    parseViemError .nonceTooLowError = none := by
  refine ⟨?_, rfl, rfl, rfl, rfl, rfl, rfl⟩
  intro e c h
  cases e with
  | contractFunctionExecutionError cause =>
      by_cases hk : isKnownCause cause = true
      · simp only [parseViemError, hk, if_true, Option.some.injEq] at h
        subst h
        exact ⟨hk, Or.inl rfl⟩
      · simp only [parseViemError, hk, if_false] at h
        simp at h
  | transactionExecutionError cause =>
      by_cases hk : isKnownCause cause = true
      · simp only [parseViemError, hk, if_true, Option.some.injEq] at h
        subst h
        exact ⟨hk, Or.inr rfl⟩
      · simp only [parseViemError, hk, if_false] at h
        simp at h
  | nonceTooLowError => simp [parseViemError] at h
  | feeCapTooLowError => simp [parseViemError] at h
  | insufficientFundsError => simp [parseViemError] at h
  | intrinsicGasTooLowError => simp [parseViemError] at h
  | contractFunctionRevertedError => simp [parseViemError] at h
  | estimateGasExecutionError => simp [parseViemError] at h
  | otherError k => simp [parseViemError] at h

/-- Claim C8, witness: the no-false-positive clause instantiated at the
wrapped nonce-too-low error. -/
theorem C8_parse_viem_error_witness :
    isKnownCause ViemError.nonceTooLowError = true ∧
    (ViemError.transactionExecutionError ViemError.nonceTooLowError =
        ViemError.contractFunctionExecutionError ViemError.nonceTooLowError ∨
      ViemError.transactionExecutionError ViemError.nonceTooLowError =
        ViemError.transactionExecutionError ViemError.nonceTooLowError) :=
  C8_parse_viem_error.1 (.transactionExecutionError .nonceTooLowError)
    .nonceTooLowError rfl

/-- Claim C9: on the Optimism path, a latest block without a base fee makes
the calculator raise the named `RpcError` whose message is
"block does not have baseFeePerGas" — the same error value for every oracle
fee and gas-price sample, so it is raised independently of (before) the
oracle and gas-price calls — and that failure is distinct from a propagated
transport error and from the division fault. -/
theorem C9_missing_base_fee :
    (∀ (l1Fee : Nat) (gasPrice : GasPriceValues) (staticFee : Int),
      calcOptimismPreVerificationGas none l1Fee gasPrice staticFee =
        .error (.rpcError missingBaseFeeMessage)) ∧
    (∀ (message : String) (code : Nat),
      EstimationError.rpcError message ≠ EstimationError.transportError code) ∧
    EstimationError.rpcError missingBaseFeeMessage ≠
      EstimationError.divisionByZero := by
  refine ⟨fun _ _ _ => rfl, fun m c h => ?_, fun h => ?_⟩
  · exact EstimationError.noConfusion h
  · exact EstimationError.noConfusion h

/-- Claim C9, witness: a concrete missing-base-fee call and the concrete
distinctness of the raised error from a transport error. -/
theorem C9_missing_base_fee_witness :
    calcOptimismPreVerificationGas none 5 ⟨1, 2⟩ 3 =
      .error (.rpcError missingBaseFeeMessage) ∧
    EstimationError.rpcError missingBaseFeeMessage ≠
      EstimationError.transportError 0 :=
  ⟨C9_missing_base_fee.1 5 ⟨1, 2⟩ 3,
   C9_missing_base_fee.2.1 missingBaseFeeMessage 0⟩

/-- Claim C10: the divisions by externally supplied prices are unguarded.
The limit deriver faults with the division-by-zero outcome at the public
interface on `maxFeePerGas = maxPriorityFeePerGas = 0` instead of returning
a pair, and it returns a pair whenever the effective gas price is non-zero;
the Optimism calculator faults whenever `l2price = min(maxFeePerGas,
baseFee + maxPriorityFeePerGas)` is zero (so for any response with
`maxFeePerGas = 0`) and returns a value whenever `l2price` is non-zero. -/
theorem C10_unguarded_division :
    calcVerificationGasAndCallGasLimit none sampleOp ⟨100000, 10000000⟩ 1 =
      .error .divisionByZero ∧
    (∀ (blockBaseFeePerGas : Option Int) (op : UnPackedUserOperation)
        (res : ExecutionResult) (chainId : Nat),
      effectiveGasPrice blockBaseFeePerGas op ≠ 0 →
      ∃ pair, calcVerificationGasAndCallGasLimit blockBaseFeePerGas op res chainId =
        .ok pair) ∧
    (∀ (B F C : Nat) (staticFee : Int),
      calcOptimismPreVerificationGas (some B) F ⟨0, C⟩ staticFee =
        .error .divisionByZero) ∧
    (∀ (B F : Nat) (gasPrice : GasPriceValues) (staticFee : Int),
      min gasPrice.maxFeePerGas (B + gasPrice.maxPriorityFeePerGas) ≠ 0 →
      ∃ v, calcOptimismPreVerificationGas (some B) F gasPrice staticFee = .ok v) := by
  refine ⟨rfl, ?_, ?_, ?_⟩
  · intro bb op res chainId h
    simp only [calcVerificationGasAndCallGasLimit, code_gasPrice_eq]
    rw [if_neg h]
    exact ⟨_, rfl⟩
  · intro B F C staticFee
    by_cases hp : (0 : Nat) < B + C
    · simp [calcOptimismPreVerificationGas, hp]
    · simp [calcOptimismPreVerificationGas, hp, show B + C = 0 by omega]
  · intro B F gasPrice staticFee h
    rcases Nat.lt_or_ge gasPrice.maxFeePerGas (B + gasPrice.maxPriorityFeePerGas)
      with hlt | hge
    · have hA : ¬gasPrice.maxFeePerGas = 0 := by omega
      simp [calcOptimismPreVerificationGas, hlt, hA]
    · have hBC : ¬B + gasPrice.maxPriorityFeePerGas = 0 := by omega
      have hnlt : ¬gasPrice.maxFeePerGas < B + gasPrice.maxPriorityFeePerGas := by omega
      simp [calcOptimismPreVerificationGas, hnlt, hBC]

/-- Claim C10, witness: concrete non-faulting runs of both fallible
calculators with non-zero divisors. -/
theorem C10_unguarded_division_witness :
    (∃ pair, calcVerificationGasAndCallGasLimit (some 0)
        { sampleOp with
          preVerificationGas := 40000
          maxFeePerGas := 100
          maxPriorityFeePerGas := 100 } ⟨100000, 10000000⟩ 1 = .ok pair) ∧
    (∃ v, calcOptimismPreVerificationGas (some 1) 10 ⟨5, 2⟩ 7 = .ok v) :=
  ⟨C10_unguarded_division.2.1 (some 0)
    { sampleOp with
      preVerificationGas := 40000
      maxFeePerGas := 100
      maxPriorityFeePerGas := 100 } ⟨100000, 10000000⟩ 1 (by decide),
   C10_unguarded_division.2.2.2 1 10 ⟨5, 2⟩ 7 (by decide)⟩

set_option maxRecDepth 100000 in
/-- Claim C7, counterexample: replacing a 1-byte `callData` (`0xff`) by a
longer 2-byte one (`0x0000`) DECREASES the default-model result (from 45208
to 45196): the byte-accounting depends on byte values, not only on length,
so a change that increases the byte length can decrease the result. -/
theorem C7_counterexample :
    ({ sampleOp with callData := [255] } : UnPackedUserOperation).callData.length <
      ({ sampleOp with callData := [0, 0] } : UnPackedUserOperation).callData.length ∧
    calcDefaultPreVerificationGas { sampleOp with callData := [0, 0] } {} <
      calcDefaultPreVerificationGas { sampleOp with callData := [255] } {} := by
  have e1 : calcDefaultPreVerificationGas { sampleOp with callData := [0, 0] } {} =
      45196 := by
    rw [calcDefault_formula, merge_default]
    rw [show bytesGasCost DefaultGasOverheads
        (worstCaseEncoding { sampleOp with callData := [0, 0] } DefaultGasOverheads) =
      5812 from by decide]
    rw [show (worstCaseEncoding { sampleOp with callData := [0, 0] }
      DefaultGasOverheads).length = 640 from by decide]
    norm_num [jsRound, DefaultGasOverheads]
  have e2 : calcDefaultPreVerificationGas { sampleOp with callData := [255] } {} =
      45208 := by
    rw [calcDefault_formula, merge_default]
    rw [show bytesGasCost DefaultGasOverheads
        (worstCaseEncoding { sampleOp with callData := [255] } DefaultGasOverheads) =
      5824 from by decide]
    rw [show (worstCaseEncoding { sampleOp with callData := [255] }
      DefaultGasOverheads).length = 640 from by decide]
    norm_num [jsRound, DefaultGasOverheads]
  rw [e1, e2]
  exact ⟨by decide, by decide⟩

/-- Claim C7, amended: under the default overheads, EXTENDING `callData`
(resp. `initCode`) by appending bytes never decreases the result, provided
the byte-accounting cost of each numeric ABI word the extension rewrites —
the extended field's 32-byte length word and the shifted tail-offset words —
does not decrease.  (The unrestricted claim is false: the data-word and
word-count contributions are monotone in the appended bytes, but those
big-endian numeric words can lose non-zero bytes as the length grows, and an
arbitrary content change can replace non-zero bytes by zero bytes.) -/
theorem C7_amended (op : UnPackedUserOperation) (s : List Nat) :
    ((bytesGasCost DefaultGasOverheads (beWord op.callData.length) ≤
        bytesGasCost DefaultGasOverheads (beWord (op.callData ++ s).length)) →
      (bytesGasCost DefaultGasOverheads
          (beWord (288 + abiBytesLen op.initCode + abiBytesLen op.callData)) ≤
        bytesGasCost DefaultGasOverheads
          (beWord (288 + abiBytesLen op.initCode + abiBytesLen (op.callData ++ s)))) →
      (bytesGasCost DefaultGasOverheads
          (beWord (288 + abiBytesLen op.initCode + abiBytesLen op.callData +
            abiBytesLen (List.replicate (2 * wcPaymasterLen op + 2) 255))) ≤
        bytesGasCost DefaultGasOverheads
          (beWord (288 + abiBytesLen op.initCode + abiBytesLen (op.callData ++ s) +
            abiBytesLen (List.replicate (2 * wcPaymasterLen op + 2) 255)))) →
      calcDefaultPreVerificationGas op {} ≤
        calcDefaultPreVerificationGas { op with callData := op.callData ++ s } {}) ∧
    ((bytesGasCost DefaultGasOverheads (beWord op.initCode.length) ≤
        bytesGasCost DefaultGasOverheads (beWord (op.initCode ++ s).length)) →
      (bytesGasCost DefaultGasOverheads (beWord (288 + abiBytesLen op.initCode)) ≤
        bytesGasCost DefaultGasOverheads
          (beWord (288 + abiBytesLen (op.initCode ++ s)))) →
      (bytesGasCost DefaultGasOverheads
          (beWord (288 + abiBytesLen op.initCode + abiBytesLen op.callData)) ≤
        bytesGasCost DefaultGasOverheads
          (beWord (288 + abiBytesLen (op.initCode ++ s) + abiBytesLen op.callData))) →
      (bytesGasCost DefaultGasOverheads
          (beWord (288 + abiBytesLen op.initCode + abiBytesLen op.callData +
            abiBytesLen (List.replicate (2 * wcPaymasterLen op + 2) 255))) ≤
        bytesGasCost DefaultGasOverheads
          (beWord (288 + abiBytesLen (op.initCode ++ s) + abiBytesLen op.callData +
            abiBytesLen (List.replicate (2 * wcPaymasterLen op + 2) 255)))) →
      calcDefaultPreVerificationGas op {} ≤
        calcDefaultPreVerificationGas { op with initCode := op.initCode ++ s } {}) :=
  ⟨fun h1 h2 h3 => calcDefault_mono_of _ _
      (wc_cost_mono_callData op s h1 h2 h3) (wc_len_mono_callData op s),
   fun h1 h2 h3 h4 => calcDefault_mono_of _ _
      (wc_cost_mono_initCode op s h1 h2 h3 h4) (wc_len_mono_initCode op s)⟩

set_option maxRecDepth 100000 in
/-- Claim C7, witness: appending `0x0102` to the empty `callData` (resp.
`initCode`) of the sample operation satisfies the word-cost provisos and
does not decrease the result. -/
theorem C7_amended_witness :
    calcDefaultPreVerificationGas sampleOp {} ≤
      calcDefaultPreVerificationGas
        { sampleOp with callData := sampleOp.callData ++ [1, 2] } {} ∧
    calcDefaultPreVerificationGas sampleOp {} ≤
      calcDefaultPreVerificationGas
        { sampleOp with initCode := sampleOp.initCode ++ [1, 2] } {} :=
  ⟨(C7_amended sampleOp [1, 2]).1 (by decide) (by decide) (by decide),
   (C7_amended sampleOp [1, 2]).2 (by decide) (by decide) (by decide) (by decide)⟩
